import Mathlib

/-!
Verification of the two-node LangGraph tutorial pipeline (src/ex1/ex1.ipynb).

The notebook defines a `TypedDict` state with a single key `"message"`,
two node functions (`greeting_node`, `farewell_node`) that read the key,
append a fixed sentence and write the key back in place, a `StateGraph`
with nodes "greeter" and "farewell", one edge greeter → farewell, entry
point "greeter" and finish point "farewell", and a single synchronous
`app.invoke` on `{message: "Sanjo"}`.

The Python dict is embedded as an association list from string keys to
string values; a missing key raises `KeyError`, embedded as `Except`.
The graph runner is embedded as a fuel-bounded walk from the entry point
along the (unique) outgoing edges, stopping after the finish point.
-/

/-- A Python dict with string keys and string values, as the notebook's
`AgentState` TypedDict instance actually is at runtime. -/
abbrev Dict := List (String × String)

/-- Faults an invocation can raise: a Python `KeyError` on a missing dict
key, or a graph-wiring fault from the runner. -/
inductive Fault where
  | keyError : String → Fault
  | graphError : String → Fault
deriving DecidableEq, Repr

/-- Python dict read `d[key]`: first matching key, `none` if absent. -/
def dictGet {α : Type} : List (String × α) → String → Option α
  | [], _ => none
  | (k, v) :: rest, key => if k = key then some v else dictGet rest key

/-- Python dict write `d[key] = val`: replaces the value of an existing
key in place, otherwise appends the new entry at the end. -/
def dictSet : Dict → String → String → Dict
  | [], key, val => [(key, val)]
  | (k, v) :: rest, key, val =>
      if k = key then (key, val) :: rest else (k, v) :: dictSet rest key val

/-- `greeting_node` from the notebook:
`state["message"] = f"{state['message']}, You are doing an amazing job learning LangGraph."`;
reading a missing `"message"` key raises `KeyError`. -/
def greeting_node (state : Dict) : Except Fault Dict :=
  match dictGet state "message" with
  | none => .error (.keyError "message")
  | some m =>
      .ok (dictSet state "message"
        (m ++ ", You are doing an amazing job learning LangGraph."))

/-- `farewell_node` from the notebook:
`state["message"] = f"{state['message']} Goodbye!"`;
reading a missing `"message"` key raises `KeyError`. -/
def farewell_node (state : Dict) : Except Fault Dict :=
  match dictGet state "message" with
  | none => .error (.keyError "message")
  | some m => .ok (dictSet state "message" (m ++ " Goodbye!"))

/-- The content of the caller's dict after `greeting_node(state)` returns:
the Python node mutates `state` in place (the f-string read happens before
the assignment, so on `KeyError` nothing was written). -/
def greetingEffect (state : Dict) : Dict :=
  match dictGet state "message" with
  | none => state
  | some m =>
      dictSet state "message"
        (m ++ ", You are doing an amazing job learning LangGraph.")

/-- The content of the caller's dict after `farewell_node(state)` returns:
the node mutates `state` in place. -/
def farewellEffect (state : Dict) : Dict :=
  match dictGet state "message" with
  | none => state
  | some m => dictSet state "message" (m ++ " Goodbye!")

/-- The part of `langgraph.graph.StateGraph` the notebook uses: named
nodes, directed edges, an entry point and a finish point. -/
structure StateGraph where
  nodes : List (String × (Dict → Except Fault Dict))
  edges : List (String × String)
  entryPoint : Option String
  finishPoint : Option String

/-- `StateGraph(state_schema=AgentState)`: an empty graph. -/
def StateGraph.new : StateGraph := ⟨[], [], none, none⟩

/-- `graph.add_node(name, f)`. -/
def StateGraph.add_node (g : StateGraph) (name : String)
    (f : Dict → Except Fault Dict) : StateGraph :=
  { g with nodes := g.nodes ++ [(name, f)] }

/-- `graph.add_edge(start_key, end_key)`. -/
def StateGraph.add_edge (g : StateGraph) (startKey endKey : String) :
    StateGraph :=
  { g with edges := g.edges ++ [(startKey, endKey)] }

/-- `graph.set_entry_point(name)`. -/
def StateGraph.set_entry_point (g : StateGraph) (name : String) : StateGraph :=
  { g with entryPoint := some name }

/-- `graph.set_finish_point(name)`. -/
def StateGraph.set_finish_point (g : StateGraph) (name : String) : StateGraph :=
  { g with finishPoint := some name }

/-- The graph built in the notebook: nodes "greeter" and "farewell", one
edge greeter → farewell, entry "greeter", finish "farewell". -/
def graph : StateGraph :=
  ((((StateGraph.new.add_node "greeter" greeting_node).add_node
      "farewell" farewell_node).add_edge "greeter"
      "farewell").set_entry_point "greeter").set_finish_point "farewell"

/-- One fuel-bounded walk of the compiled graph: run the current node,
stop after the finish point, otherwise follow the outgoing edge. -/
def runFrom (g : StateGraph) : Nat → String → Dict → Except Fault Dict
  | 0, _, _ => .error (.graphError "recursion limit reached")
  | fuel + 1, current, d =>
      match dictGet g.nodes current with
      | none => .error (.graphError "unknown node")
      | some f =>
          match f d with
          | .error e => .error e
          | .ok d' =>
              if g.finishPoint = some current then .ok d'
              else
                match dictGet g.edges current with
                | none => .error (.graphError "dead end")
                | some next => runFrom g fuel next d'

/-- `graph.compile()` followed by `.invoke(d)`: start at the entry point
and walk the edges; the fuel bound (one step per node) is never hit on
the notebook's loop-free two-node graph. -/
def invoke (g : StateGraph) (d : Dict) : Except Fault Dict :=
  match g.entryPoint with
  | none => .error (.graphError "no entry point")
  | some start => runFrom g g.nodes.length start d

/-- `app = graph.compile()`: the compiled pipeline, as the function one
`invoke` applies to an initial state. -/
def app (d : Dict) : Except Fault Dict := invoke graph d

/-- Helper: reading back the key just written. -/
lemma dictGet_dictSet (d : Dict) (k v : String) :
    dictGet (dictSet d k v) k = some v := by
  induction d with
  | nil => simp [dictGet, dictSet]
  | cons hd tl ih =>
      obtain ⟨k', v'⟩ := hd
      by_cases h : k' = k
      · simp [dictGet, dictSet, h]
      · simp [dictGet, dictSet, h, ih]

/-- Helper: the compiled pipeline is greeting then farewell (shared by
several claim proofs). -/
lemma app_eq_seq (d : Dict) :
    app d = (greeting_node d).bind farewell_node := by
  cases hg : greeting_node d with
  | error e =>
      simp [app, invoke, graph, StateGraph.new, StateGraph.add_node,
        StateGraph.add_edge, StateGraph.set_entry_point,
        StateGraph.set_finish_point, runFrom, dictGet, hg, Except.bind]
  | ok d1 =>
      cases hf : farewell_node d1 with
      | error e =>
          simp [app, invoke, graph, StateGraph.new, StateGraph.add_node,
            StateGraph.add_edge, StateGraph.set_entry_point,
            StateGraph.set_finish_point, runFrom, dictGet, hg, hf,
            Except.bind]
      | ok d2 =>
          simp [app, invoke, graph, StateGraph.new, StateGraph.add_node,
            StateGraph.add_edge, StateGraph.set_entry_point,
            StateGraph.set_finish_point, runFrom, dictGet, hg, hf,
            Except.bind]

/-- C1: invoking the compiled pipeline on `{message: "Sanjo"}` returns
`{message: "Sanjo, You are doing an amazing job learning LangGraph. Goodbye!"}`,
exactly as the notebook's output cell prints. -/
theorem invoke_sanjo :
    app [("message", "Sanjo")] =
      .ok [("message",
        "Sanjo, You are doing an amazing job learning LangGraph. Goodbye!")] := by
  rfl

/-- C2: on a state whose single `"message"` field holds `t`, the greeting
stage returns the state with that field set to `t` followed by
`", You are doing an amazing job learning LangGraph."`. -/
theorem greeting_appends (t : String) :
    greeting_node [("message", t)] =
      .ok [("message",
        t ++ ", You are doing an amazing job learning LangGraph.")] := by
  simp [greeting_node, dictGet, dictSet]

/-- C3: on a state whose single `"message"` field holds `t`, the farewell
stage returns the state with that field set to `t ++ " Goodbye!"`. -/
theorem farewell_appends (t : String) :
    farewell_node [("message", t)] =
      .ok [("message", t ++ " Goodbye!")] := by
  simp [farewell_node, dictGet, dictSet]

/-- C4: one invocation of the compiled pipeline equals applying the
greeting stage once and then the farewell stage once (entry = greeting,
exit = farewell, each executed exactly once, faults propagated). -/
theorem invoke_is_greeting_then_farewell (d : Dict) :
    app d = (greeting_node d).bind farewell_node :=
  app_eq_seq d

/-- C5: for every initial record, the message produced by the greeting
stage is a prefix of the message in the final pipeline output. -/
theorem greeting_output_starts_final_output (d g r : Dict)
    (hg : greeting_node d = .ok g) (hr : app d = .ok r) :
    ∃ mg mr, dictGet g "message" = some mg ∧
      dictGet r "message" = some mr ∧ ∃ u, mg ++ u = mr := by
  cases h : dictGet d "message" with
  | none => simp [greeting_node, h] at hg
  | some t =>
      simp [greeting_node, h] at hg
      subst hg
      rw [app_eq_seq] at hr
      simp [greeting_node, h, Except.bind] at hr
      simp [farewell_node, dictGet_dictSet] at hr
      refine ⟨t ++ ", You are doing an amazing job learning LangGraph.",
        (t ++ ", You are doing an amazing job learning LangGraph.") ++
          " Goodbye!", dictGet_dictSet .., ?_, " Goodbye!", rfl⟩
      rw [← hr]
      exact dictGet_dictSet ..

/-- C5 witness: the prefix relation at the concrete run of the notebook. -/
theorem greeting_output_starts_final_output_witness :
    ∃ mg mr,
      dictGet ([("message",
        "Sanjo, You are doing an amazing job learning LangGraph.")] : Dict)
        "message" = some mg ∧
      dictGet ([("message",
        "Sanjo, You are doing an amazing job learning LangGraph. Goodbye!")] :
        Dict) "message" = some mr ∧ ∃ u, mg ++ u = mr :=
  greeting_output_starts_final_output [("message", "Sanjo")] _ _ rfl rfl

/-- C6: the pipeline is deterministic — two invocations of the compiled
pipeline on the same input record return identical results. -/
theorem invoke_deterministic (d : Dict) (r₁ r₂ : Except Fault Dict)
    (h₁ : app d = r₁) (h₂ : app d = r₂) : r₁ = r₂ := by
  rw [← h₁, ← h₂]

/-- C6 witness: the two results of running the notebook's input twice. -/
theorem invoke_deterministic_witness :
    (Except.ok [("message",
      "Sanjo, You are doing an amazing job learning LangGraph. Goodbye!")] :
      Except Fault Dict) =
    Except.ok [("message",
      "Sanjo, You are doing an amazing job learning LangGraph. Goodbye!")] :=
  invoke_deterministic [("message", "Sanjo")] _ _ rfl rfl

/-- C7 counterexample: the claim that the input state record is unchanged
after a stage is false — `greeting_node` assigns `state["message"]` in
place, so on the notebook's input the caller's dict is mutated. -/
theorem stage_mutates_input :
    greetingEffect [("message", "Sanjo")] ≠ [("message", "Sanjo")] := by
  decide

/-- C7 (amended): each stage's only effect is the in-place update of the
state record passed to it — after a call the caller's dict holds exactly
the returned record on success, and is unchanged when the stage faults
with `KeyError`; no other state is touched. -/
theorem stage_effect_is_returned_record (d : Dict) :
    greetingEffect d =
      (match greeting_node d with | .ok d' => d' | .error _ => d) ∧
    farewellEffect d =
      (match farewell_node d with | .ok d' => d' | .error _ => d) := by
  cases h : dictGet d "message" <;>
    simp [greetingEffect, farewellEffect, greeting_node, farewell_node, h]

/-- C8: no error handling — on any record lacking the `"message"` key
the greeting stage, and hence the whole pipeline, stops with the
unhandled `KeyError` instead of returning a result. -/
theorem missing_key_faults (d : Dict)
    (h : dictGet d "message" = none) :
    greeting_node d = .error (.keyError "message") ∧
      app d = .error (.keyError "message") := by
  refine ⟨by simp [greeting_node, h], ?_⟩
  rw [app_eq_seq]
  simp [greeting_node, h, Except.bind]

/-- C8 witness: invoking on the empty record raises the `KeyError`. -/
theorem missing_key_faults_witness :
    dictGet ([] : Dict) "message" = none ∧
      (greeting_node [] = .error (.keyError "message") ∧
        app [] = .error (.keyError "message")) :=
  ⟨rfl, missing_key_faults [] rfl⟩

/-- C9: shape invariant — on a state that is exactly the one string field
`"message"`, each stage and the whole pipeline return a state that is
again exactly that one field holding a string; no key is added or
removed. -/
theorem single_field_shape_preserved (t : String) :
    (∃ a, greeting_node [("message", t)] = .ok [("message", a)]) ∧
    (∃ b, farewell_node [("message", t)] = .ok [("message", b)]) ∧
    (∃ c, app [("message", t)] = .ok [("message", c)]) := by
  refine ⟨⟨t ++ ", You are doing an amazing job learning LangGraph.",
      by simp [greeting_node, dictGet, dictSet]⟩,
    ⟨t ++ " Goodbye!", by simp [farewell_node, dictGet, dictSet]⟩,
    ⟨(t ++ ", You are doing an amazing job learning LangGraph.") ++
      " Goodbye!", ?_⟩⟩
  rw [app_eq_seq]
  simp [greeting_node, farewell_node, dictGet, dictSet, Except.bind]

/-- C10: the caller's original text is preserved — each stage appends a
fixed non-empty suffix to the `"message"` value it received, and the
final pipeline output holds the initial text followed by a non-empty
suffix (so the input is a prefix of the output, never truncated). -/
theorem input_text_is_preserved (d : Dict) (s : String)
    (h : dictGet d "message" = some s) :
    (∃ g, greeting_node d = .ok g ∧
      dictGet g "message" =
        some (s ++ ", You are doing an amazing job learning LangGraph.")) ∧
    (∃ f, farewell_node d = .ok f ∧
      dictGet f "message" = some (s ++ " Goodbye!")) ∧
    (∃ r u, app d = .ok r ∧ u ≠ "" ∧
      dictGet r "message" = some (s ++ u)) := by
  refine ⟨⟨dictSet d "message"
      (s ++ ", You are doing an amazing job learning LangGraph."),
      by simp [greeting_node, h], dictGet_dictSet ..⟩,
    ⟨dictSet d "message" (s ++ " Goodbye!"),
      by simp [farewell_node, h], dictGet_dictSet ..⟩,
    dictSet
      (dictSet d "message"
        (s ++ ", You are doing an amazing job learning LangGraph."))
      "message"
      ((s ++ ", You are doing an amazing job learning LangGraph.") ++
        " Goodbye!"),
    ", You are doing an amazing job learning LangGraph." ++ " Goodbye!",
    ?_, by decide, ?_⟩
  · rw [app_eq_seq]
    simp [greeting_node, h, farewell_node, dictGet_dictSet, Except.bind]
  · rw [← String.append_assoc]
    exact dictGet_dictSet ..

/-- C10 witness: preservation at the notebook's concrete input. -/
theorem input_text_is_preserved_witness :
    (∃ g, greeting_node [("message", "Sanjo")] = .ok g ∧
      dictGet g "message" =
        some ("Sanjo" ++
          ", You are doing an amazing job learning LangGraph.")) ∧
    (∃ f, farewell_node [("message", "Sanjo")] = .ok f ∧
      dictGet f "message" = some ("Sanjo" ++ " Goodbye!")) ∧
    (∃ r u, app [("message", "Sanjo")] = .ok r ∧ u ≠ "" ∧
      dictGet r "message" = some ("Sanjo" ++ u)) :=
  input_text_is_preserved [("message", "Sanjo")] "Sanjo" rfl
